import Mathlib

/-!
Verification of `spe-firewallrulegenerator` (`src/main.py`), a CLI that loads
a policy file and a data file (YAML or JSON, chosen by filename suffix),
extracts the JSON schema stored under the policy's `schema` key, and delegates
validation to the external `jsonschema` library, printing one of two result
sentences.

The shallow embedding below models:
* structured values parsed from YAML/JSON as the inductive `JValue`;
* the filesystem as a partial map from path strings to `PyFile`, where a file
  is represented by the outcome of parsing its content with each of the two
  parsers (`yaml.safe_load` and `json.load`);
* Python exceptions relevant to the program as `PyExc` (with `SystemExit`
  deriving from `BaseException`, hence not caught by `except Exception`);
* the external `jsonschema.validate` routine as an oracle parameter
  `Validator` that either raises nothing, raises `ValidationError`, or raises
  some other `Exception`-level error;
* logging as an accumulated list of `(level, message)` records, filtered at
  the end by the `--log_level` threshold (equivalent to Python's filtering at
  each call site, since the level is set once before any logging in `main`).
-/

/-- Structured value resulting from parsing YAML or JSON content
(object / array / string / number / boolean / null). -/
inductive JValue where
  | null : JValue
  | bool (b : Bool) : JValue
  | num (n : Int) : JValue
  | str (s : String) : JValue
  | arr (xs : List JValue) : JValue
  | obj (kvs : List (String × JValue)) : JValue

/-- Python logging levels used by the program, as accepted by `--log_level`. -/
inductive LogLevel where
  | debug | info | warning | error | critical
deriving DecidableEq, Repr

/-- Numeric value of a logging level (as in Python's `logging` module). -/
def LogLevel.toNat : LogLevel → Nat
  | .debug => 10
  | .info => 20
  | .warning => 30
  | .error => 40
  | .critical => 50

/-- A log record: numeric level paired with the formatted message. -/
abbrev LogRec := Nat × String

/-- Python exceptions that can arise in `main.py`.  `systemExit` models
`SystemExit`, which derives from `BaseException` and is therefore NOT caught
by `except Exception`; every other constructor models an `Exception`
subclass. -/
inductive PyExc where
  | fileNotFound (path : String) : PyExc
  | yamlError (msg : String) : PyExc
  | jsonError (msg : String) : PyExc
  | valueError (msg : String) : PyExc
  | typeError (msg : String) : PyExc
  | keyError (key : String) : PyExc
  | systemExit (code : Nat) : PyExc
deriving DecidableEq, Repr

/-- Whether the exception is an `Exception` subclass (caught by
`except Exception`).  `SystemExit` derives only from `BaseException`. -/
def PyExc.isException : PyExc → Bool
  | .systemExit _ => false
  | _ => true

/-- The string `str(e)` interpolated into log messages. -/
def PyExc.message : PyExc → String
  | .fileNotFound p => "[Errno 2] No such file or directory: '" ++ p ++ "'"
  | .yamlError m => m
  | .jsonError m => m
  | .valueError m => m
  | .typeError m => m
  | .keyError k => "'" ++ k ++ "'"
  | .systemExit c => toString c

/-- A file on disk, represented by the outcome of parsing its (fixed) content
with each of the two parsers the program may choose by suffix. -/
structure PyFile where
  yamlParse : Except String JValue
  jsonParse : Except String JValue

/-- The filesystem: `none` means `open` raises `FileNotFoundError`. -/
abbrev FS := String → Option PyFile

/-- Suffix test, matching Python's case-sensitive `str.endswith`. -/
def strEndsWith (s pat : String) : Bool :=
  List.isSuffixOf pat.toList s.toList

/-- Embedding of `load_data` (src/main.py lines 41-71): open the file (raising
`FileNotFoundError` if absent), choose the parser by suffix, raise
`ValueError` for unsupported suffixes; each `except` arm logs at error level
and re-raises.  Returns the outcome paired with the log records produced. -/
def load_data (fs : FS) (file_path : String) : Except PyExc JValue × List LogRec :=
  match fs file_path with
  | none =>
      (.error (.fileNotFound file_path), [(40, "File not found: " ++ file_path)])
  | some f =>
      if strEndsWith file_path ".yaml" || strEndsWith file_path ".yml" then
        match f.yamlParse with
        | .ok v => (.ok v, [])
        | .error m => (.error (.yamlError m), [(40, "Error parsing YAML file: " ++ m)])
      else if strEndsWith file_path ".json" then
        match f.jsonParse with
        | .ok v => (.ok v, [])
        | .error m => (.error (.jsonError m), [(40, "Error parsing JSON file: " ++ m)])
      else
        (.error (.valueError "Unsupported file format. Use YAML or JSON."),
         [(40, "Error loading data: Unsupported file format. Use YAML or JSON.")])

/-- Outcome of one call to the external `jsonschema.validate` routine:
either it raises `ValidationError` or some other `Exception`-level error. -/
inductive VErr where
  | validationError (msg : String) : VErr
  | otherError (msg : String) : VErr

/-- The external `jsonschema.validate` oracle: given instance and schema,
`none` means it returns without raising; `some e` means it raises `e`. -/
abbrev Validator := JValue → JValue → Option VErr

/-- Embedding of `validate_data` (src/main.py lines 74-93): call the external
routine; `except ValidationError` and `except Exception` both convert the
exception to `False` plus an error-level log record.  The `Except` result
type records that the function could in principle propagate an exception;
the definition shows every branch returns `.ok`. -/
def validate_data (V : Validator) (data schema : JValue) :
    Except PyExc (Bool × List LogRec) :=
  match V data schema with
  | none => .ok (true, [])
  | some (.validationError m) =>
      .ok (false, [(40, "Validation error: " ++ m)])
  | some (.otherError m) =>
      .ok (false, [(40, "Unexpected error during validation: " ++ m)])

/-- First value bound to a key in an association list (Python dict lookup;
parsed YAML/JSON objects have unique keys, so first-match is faithful). -/
def lookupKey (kvs : List (String × JValue)) (k : String) : Option JValue :=
  match kvs with
  | [] => none
  | (k2, v) :: rest => if k2 = k then some v else lookupKey rest k

/-- Whether `pat` occurs as a contiguous substring of `hay` (Python's
`in` operator on strings). -/
def subOccurs (pat : List Char) : List Char → Bool
  | [] => pat.isEmpty
  | c :: rest => List.isPrefixOf pat (c :: rest) || subOccurs pat rest

/-- Embedding of Python's `key in v` membership test: key lookup on dicts,
substring on strings, element membership on lists (where `"schema" == x`
holds only for the equal string), and `TypeError` on null, booleans and
numbers, which are not iterable. -/
def pyContains (key : String) (v : JValue) : Except PyExc Bool :=
  match v with
  | .obj kvs => .ok (lookupKey kvs key).isSome
  | .str s => .ok (subOccurs key.toList s.toList)
  | .arr xs => .ok (hasStrElem xs key)
  | .null => .error (.typeError "argument of type 'NoneType' is not iterable")
  | .bool _ => .error (.typeError "argument of type 'bool' is not iterable")
  | .num _ => .error (.typeError "argument of type 'int' is not iterable")
where
  /-- Whether some element of the list is the string `key`. -/
  hasStrElem : List JValue → String → Bool
    | [], _ => false
    | .str s :: rest, k => (s == k) || hasStrElem rest k
    | _ :: rest, k => hasStrElem rest k

/-- Embedding of Python's `v[key]` subscript with a string key: dict lookup
(raising `KeyError` when absent), `TypeError` on every other type. -/
def pySubscript (v : JValue) (key : String) : Except PyExc JValue :=
  match v with
  | .obj kvs =>
      match lookupKey kvs key with
      | some x => .ok x
      | none => .error (.keyError key)
  | .str _ => .error (.typeError "string indices must be integers")
  | .arr _ => .error (.typeError "list indices must be integers or slices, not str")
  | _ => .error (.typeError "object is not subscriptable")

/-- Embedding of the body of `main`'s `try` block (src/main.py lines 107-125):
load both files, require the `schema` key (`sys.exit(1)` raises
`SystemExit(1)` when absent), extract the schema, validate, and print one of
the two result sentences.  `.ok` carries the printed stdout lines and the log
records; `.error` carries the escaping exception and the records so far. -/
def mainBody (fs : FS) (V : Validator) (policy_file data_file : String) :
    Except (PyExc × List LogRec) (List String × List LogRec) :=
  match load_data fs policy_file with
  | (.error e, lg) => .error (e, lg)
  | (.ok policy_data, lg1) =>
    match load_data fs data_file with
    | (.error e, lg2) => .error (e, lg1 ++ lg2)
    | (.ok data_to_validate, lg2) =>
      match pyContains "schema" policy_data with
      | .error e => .error (e, lg1 ++ lg2)
      | .ok b =>
        if b then
          match pySubscript policy_data "schema" with
          | .error e => .error (e, lg1 ++ lg2)
          | .ok schema =>
            match validate_data V data_to_validate schema with
            | .error e => .error (e, lg1 ++ lg2)
            | .ok (is_valid, lgv) =>
              if is_valid then
                .ok (["Data is valid according to the policy."],
                     lg1 ++ lg2 ++ lgv ++
                       [(20, "Data is valid according to the policy.")])
              else
                .ok (["Data does not conform to the defined policy."],
                     lg1 ++ lg2 ++ lgv ++
                       [(30, "Data does not conform to the defined policy.")])
        else
          .error (.systemExit 1,
                  lg1 ++ lg2 ++ [(40, "Policy file must contain a 'schema' key.")])

/-- One full run of `main` before log filtering: stdout lines, exit code and
the unfiltered log records.  The `except Exception` handler (lines 127-129)
catches `Exception` subclasses, logs a critical message and exits 1;
`SystemExit` is not an `Exception`, so it escapes the handler and terminates
the process with its own code. -/
def mainRecords (fs : FS) (V : Validator) (policy_file data_file : String) :
    List String × Nat × List LogRec :=
  match mainBody fs V policy_file data_file with
  | .ok (out, lg) => (out, 0, lg)
  | .error (e, lg) =>
      if e.isException then
        (([] : List String), 1,
         lg ++ [(50, "An unexpected error occurred: " ++ e.message)])
      else
        match e with
        | .systemExit c => (([] : List String), c, lg)
        | _ => (([] : List String), 1, lg)

/-- Observable outcome of one program invocation. -/
structure RunOutcome where
  stdout : List String
  exitCode : Nat
  logs : List LogRec
deriving DecidableEq, Repr

/-- Embedding of a full run of `main` with a given `--log_level`: the logger
threshold only filters which records are emitted (Python filters at each
logging call; the threshold is fixed before any logging, so filtering at the
end is equivalent). -/
def mainRun (fs : FS) (V : Validator) (policy_file data_file : String)
    (lvl : LogLevel) : RunOutcome :=
  let r := mainRecords fs V policy_file data_file
  ⟨r.1, r.2.1, r.2.2.filter (fun rec => decide (lvl.toNat ≤ rec.1))⟩

/-! Concrete fixtures used to instantiate the theorems below on closed runs. -/

/-- A policy document with a `schema` key (spec Scenario A). -/
def samplePolicy : JValue := .obj [("schema", .obj [("type", .str "object")])]

/-- A policy document lacking the `schema` key (spec Scenario C). -/
def sampleNoSchema : JValue := .obj [("notschema", .obj [])]

/-- A sample data document. -/
def sampleData : JValue := .obj [("name", .str "alice")]

/-- A file whose content parses to `v` under either parser. -/
def fileOf (v : JValue) : PyFile := ⟨.ok v, .ok v⟩

/-- A small filesystem covering the spec's scenarios: a good policy, good data
in both formats, a `.txt` file, a syntactically bad YAML file, a policy
without `schema`, and a policy file whose content is YAML `null`. -/
def sampleFS : FS := fun p =>
  if p = "policy.yaml" then some (fileOf samplePolicy)
  else if p = "data.yaml" then some (fileOf sampleData)
  else if p = "data.json" then some (fileOf sampleData)
  else if p = "bad.txt" then some (fileOf sampleData)
  else if p = "badpolicy.yaml" then some ⟨Except.error "bad", Except.error "bad"⟩
  else if p = "noschema.yaml" then some (fileOf sampleNoSchema)
  else if p = "nullpolicy.yaml" then some (fileOf .null)
  else none

/-- Validator oracle that accepts every instance. -/
def Vok : Validator := fun _ _ => none

/-- Validator oracle that raises `ValidationError` on every instance
(spec Scenario B's missing required property). -/
def Vbad : Validator := fun _ _ =>
  some (.validationError "'name' is a required property")

/-! Helper lemmas shared by the claim theorems. -/

/-- Every logging level's numeric value is at most `CRITICAL` (50), so
critical records pass every threshold filter. -/
theorem LogLevel.toNat_le_fifty (lvl : LogLevel) : lvl.toNat ≤ 50 := by
  cases lvl <;> simp [LogLevel.toNat]

/-- A successful `load_data` call produces no log records. -/
theorem load_data_ok_logs (fs : FS) (p : String) (v : JValue) (lg : List LogRec)
    (h : load_data fs p = (.ok v, lg)) : lg = [] := by
  unfold load_data at h
  repeat' split at h
  all_goals simp_all

/-- Every exception `load_data` can raise is an `Exception` subclass
(`FileNotFoundError`, `YAMLError`, `JSONDecodeError` or `ValueError`),
so the top-level `except Exception` handler catches it. -/
theorem load_data_error_isException (fs : FS) (p : String) (e : PyExc)
    (lg : List LogRec) (h : load_data fs p = (.error e, lg)) :
    e.isException = true := by
  unfold load_data at h
  repeat' split at h
  all_goals injection h with h1 h2
  all_goals first
    | exact Except.noConfusion h1
    | (injection h1 with h3; rw [← h3]; rfl)

/-! Claim theorems. -/

/-- C1: for every data value and schema value, `validate_data` returns `True`
exactly when the underlying `jsonschema.validate` routine raises no exception
(the data satisfies every constraint of the schema), and returns `False`
after logging the violation message when the routine raises
`ValidationError`. -/
theorem C1_validate_data_result (V : Validator) (d s : JValue) :
    (validate_data V d s = .ok (true, []) ↔ V d s = none) ∧
    (∀ m, V d s = some (.validationError m) →
      validate_data V d s = .ok (false, [(40, "Validation error: " ++ m)])) := by
  refine ⟨⟨fun h => ?_, fun h => by simp [validate_data, h]⟩,
          fun m h => by simp [validate_data, h]⟩
  cases hv : V d s with
  | none => rfl
  | some e => cases e <;> simp [validate_data, hv] at h

/-- Witness for C1 at a concrete oracle, data and schema. -/
theorem C1_validate_data_result_witness :
    validate_data Vbad sampleData (JValue.obj [])
      = .ok (false, [(40, "Validation error: 'name' is a required property")]) :=
  (C1_validate_data_result Vbad sampleData (JValue.obj [])).2
    "'name' is a required property" rfl

/-- C2: `validate_data` never raises past its own boundary: whatever the
external routine does (returns, raises `ValidationError`, or raises any other
exception), the caller receives `.ok` with a boolean result. -/
theorem C2_validate_data_never_raises (V : Validator) (d s : JValue) :
    ∃ b lg, validate_data V d s = .ok (b, lg) := by
  cases hv : V d s with
  | none => exact ⟨true, [], by simp [validate_data, hv]⟩
  | some e =>
      cases e with
      | validationError m =>
          exact ⟨false, [(40, "Validation error: " ++ m)],
                 by simp [validate_data, hv]⟩
      | otherError m =>
          exact ⟨false, [(40, "Unexpected error during validation: " ++ m)],
                 by simp [validate_data, hv]⟩

/-- C8: two runs on the same filesystem, oracle and paths that differ only in
the `--log_level` argument produce the same stdout sentence and the same exit
code: the level only filters log records. -/
theorem C8_log_level_no_effect (fs : FS) (V : Validator) (p d : String)
    (lvl1 lvl2 : LogLevel) :
    (mainRun fs V p d lvl1).stdout = (mainRun fs V p d lvl2).stdout ∧
    (mainRun fs V p d lvl1).exitCode = (mainRun fs V p d lvl2).exitCode :=
  ⟨rfl, rfl⟩

/-- C9: `load_data` opens the file before examining its suffix, so a
nonexistent path always fails with `FileNotFoundError` (and the corresponding
log record), whatever its suffix — a nonexistent `.txt` path reports
file-not-found, never unsupported-format. -/
theorem C9_open_before_suffix (fs : FS) (p : String) (h : fs p = none) :
    load_data fs p = (.error (.fileNotFound p), [(40, "File not found: " ++ p)]) := by
  simp [load_data, h]

/-- Witness for C9 on the empty filesystem and a `.txt` path. -/
theorem C9_open_before_suffix_witness :
    load_data (fun _ => none) "config.txt"
      = (.error (.fileNotFound "config.txt"),
         [(40, "File not found: config.txt")]) :=
  C9_open_before_suffix (fun _ => none) "config.txt" rfl

/-- C3: when both files load successfully and the loaded policy is a mapping
containing the key `schema`, the program prints exactly one of the two
literal sentences — "Data is valid according to the policy." or "Data does
not conform to the defined policy." — and exits with status 0, regardless of
whether validation passed or failed. -/
theorem C3_schema_present_exit_zero (fs : FS) (V : Validator) (p d : String)
    (lvl : LogLevel) (kvs : List (String × JValue)) (dat : JValue)
    (lgp lgd : List LogRec)
    (hp : load_data fs p = (.ok (.obj kvs), lgp))
    (hd : load_data fs d = (.ok dat, lgd))
    (hs : (lookupKey kvs "schema").isSome = true) :
    (mainRun fs V p d lvl).exitCode = 0 ∧
    ((mainRun fs V p d lvl).stdout = ["Data is valid according to the policy."] ∨
     (mainRun fs V p d lvl).stdout = ["Data does not conform to the defined policy."]) := by
  obtain ⟨sch, hsch⟩ := Option.isSome_iff_exists.mp hs
  have hpy : pyContains "schema" (.obj kvs) = .ok true := by
    simp [pyContains, hs]
  have hsub : pySubscript (.obj kvs) "schema" = .ok sch := by
    simp [pySubscript, hsch]
  cases hv : V dat sch with
  | none =>
      simp [mainRun, mainRecords, mainBody, hp, hd, hpy, hsub, validate_data, hv]
  | some e =>
      cases e <;>
        simp [mainRun, mainRecords, mainBody, hp, hd, hpy, hsub, validate_data, hv]

/-- Witness for C3: spec Scenario A on the sample filesystem. -/
theorem C3_schema_present_exit_zero_witness :
    (mainRun sampleFS Vok "policy.yaml" "data.yaml" LogLevel.info).exitCode = 0 ∧
    ((mainRun sampleFS Vok "policy.yaml" "data.yaml" LogLevel.info).stdout
        = ["Data is valid according to the policy."] ∨
     (mainRun sampleFS Vok "policy.yaml" "data.yaml" LogLevel.info).stdout
        = ["Data does not conform to the defined policy."]) :=
  C3_schema_present_exit_zero sampleFS Vok "policy.yaml" "data.yaml" LogLevel.info
    [("schema", JValue.obj [("type", JValue.str "object")])] sampleData [] []
    rfl rfl rfl

/-- C4: when both files load successfully and the loaded policy is a mapping
lacking the key `schema`, the program logs the error "Policy file must
contain a 'schema' key.", prints no validation sentence, attempts no
validation (the outcome is independent of the validator oracle), and exits
with status 1 via `sys.exit(1)` — whose `SystemExit` escapes the generic
`except Exception` handler, so no critical record is logged (the log consists
of exactly the one dedicated error record, threshold permitting). -/
theorem C4_missing_schema_dedicated_exit (fs : FS) (V : Validator) (p d : String)
    (lvl : LogLevel) (kvs : List (String × JValue)) (dat : JValue)
    (lgp lgd : List LogRec)
    (hp : load_data fs p = (.ok (.obj kvs), lgp))
    (hd : load_data fs d = (.ok dat, lgd))
    (hs : (lookupKey kvs "schema").isSome = false) :
    (mainRun fs V p d lvl).exitCode = 1 ∧
    (mainRun fs V p d lvl).stdout = [] ∧
    (mainRun fs V p d lvl).logs =
      (if lvl.toNat ≤ 40
       then [(40, "Policy file must contain a 'schema' key.")]
       else ([] : List LogRec)) ∧
    (∀ V2 : Validator, mainRun fs V2 p d lvl = mainRun fs V p d lvl) := by
  have hlp := load_data_ok_logs fs p _ _ hp
  have hld := load_data_ok_logs fs d _ _ hd
  subst hlp hld
  have hpy : pyContains "schema" (.obj kvs) = .ok false := by
    simp [pyContains, hs]
  have hbody : ∀ W : Validator, mainBody fs W p d =
      .error (.systemExit 1, [(40, "Policy file must contain a 'schema' key.")]) := by
    intro W
    simp [mainBody, hp, hd, hpy]
  refine ⟨?_, ?_, ?_, fun V2 => ?_⟩
  · simp [mainRun, mainRecords, hbody V, PyExc.isException]
  · simp [mainRun, mainRecords, hbody V, PyExc.isException]
  · by_cases h40 : lvl.toNat ≤ 40 <;>
      simp [mainRun, mainRecords, hbody V, PyExc.isException, List.filter, h40]
  · simp [mainRun, mainRecords, hbody V, hbody V2]

/-- Witness for C4: spec Scenario C on the sample filesystem, with the
validator-independence instantiated at a second oracle. -/
theorem C4_missing_schema_dedicated_exit_witness :
    (mainRun sampleFS Vok "noschema.yaml" "data.yaml" LogLevel.info).exitCode = 1 ∧
    (mainRun sampleFS Vok "noschema.yaml" "data.yaml" LogLevel.info).stdout = [] ∧
    (mainRun sampleFS Vok "noschema.yaml" "data.yaml" LogLevel.info).logs
      = [(40, "Policy file must contain a 'schema' key.")] ∧
    mainRun sampleFS Vbad "noschema.yaml" "data.yaml" LogLevel.info
      = mainRun sampleFS Vok "noschema.yaml" "data.yaml" LogLevel.info :=
  let h := C4_missing_schema_dedicated_exit sampleFS Vok "noschema.yaml"
    "data.yaml" LogLevel.info [("notschema", JValue.obj [])] sampleData [] []
    rfl rfl rfl
  ⟨h.1, h.2.1, by rw [h.2.2.1]; decide, h.2.2.2 Vbad⟩

/-- C5: for every existing file whose path does not end in `.yaml`, `.yml` or
`.json` (case-sensitive), loading fails with the unsupported-format
`ValueError`, and a run receiving such a path as either policy file or data
file exits with status 1. -/
theorem C5_unsupported_suffix (fs : FS) (V : Validator) (p q : String)
    (lvl : LogLevel) (f : PyFile)
    (hex : fs p = some f)
    (h1 : strEndsWith p ".yaml" = false)
    (h2 : strEndsWith p ".yml" = false)
    (h3 : strEndsWith p ".json" = false) :
    (load_data fs p).1
      = .error (.valueError "Unsupported file format. Use YAML or JSON.") ∧
    (mainRun fs V p q lvl).exitCode = 1 ∧
    (mainRun fs V q p lvl).exitCode = 1 := by
  have hload : load_data fs p =
      (.error (.valueError "Unsupported file format. Use YAML or JSON."),
       [(40, "Error loading data: Unsupported file format. Use YAML or JSON.")]) := by
    simp [load_data, hex, h1, h2, h3]
  refine ⟨by rw [hload], ?_, ?_⟩
  · simp [mainRun, mainRecords, mainBody, hload, PyExc.isException]
  · rcases hq : load_data fs q with ⟨r, lg⟩
    cases r with
    | error e =>
        have he := load_data_error_isException fs q e lg hq
        simp [mainRun, mainRecords, mainBody, hq, he]
    | ok pol =>
        simp [mainRun, mainRecords, mainBody, hq, hload, PyExc.isException]

/-- Witness for C5: spec Scenario D, a `.txt` file used as policy and as
data on the sample filesystem. -/
theorem C5_unsupported_suffix_witness :
    (load_data sampleFS "bad.txt").1
      = .error (.valueError "Unsupported file format. Use YAML or JSON.") ∧
    (mainRun sampleFS Vok "bad.txt" "data.yaml" LogLevel.info).exitCode = 1 ∧
    (mainRun sampleFS Vok "data.yaml" "bad.txt" LogLevel.info).exitCode = 1 :=
  C5_unsupported_suffix sampleFS Vok "bad.txt" "data.yaml" LogLevel.info
    (fileOf sampleData) rfl rfl rfl rfl

/-- C6: a `.json` file and a `.yaml` file whose contents parse to the same
structured value load to equal results, so a run using either as the data
file (against the same policy) has identical outcome — stdout, exit code and
logs. -/
theorem C6_format_equivalence (fs : FS) (V : Validator) (ppath pj py : String)
    (lvl : LogLevel) (fj fy : PyFile) (v : JValue)
    (hfj : fs pj = some fj) (hfy : fs py = some fy)
    (hsj : strEndsWith pj ".json" = true)
    (hsj1 : strEndsWith pj ".yaml" = false)
    (hsj2 : strEndsWith pj ".yml" = false)
    (hsy : strEndsWith py ".yaml" = true)
    (hpj : fj.jsonParse = .ok v) (hpy : fy.yamlParse = .ok v) :
    load_data fs pj = load_data fs py ∧
    mainRun fs V ppath pj lvl = mainRun fs V ppath py lvl := by
  have hlj : load_data fs pj = (.ok v, []) := by
    simp [load_data, hfj, hsj, hsj1, hsj2, hpj]
  have hly : load_data fs py = (.ok v, []) := by
    simp [load_data, hfy, hsy, hpy]
  refine ⟨hlj.trans hly.symm, ?_⟩
  rcases hp : load_data fs ppath with ⟨r, lg⟩
  cases r with
  | error e => simp [mainRun, mainRecords, mainBody, hp]
  | ok pol => simp [mainRun, mainRecords, mainBody, hp, hlj, hly]

/-- Witness for C6: the same data document stored as `data.json` and as
`data.yaml` on the sample filesystem. -/
theorem C6_format_equivalence_witness :
    load_data sampleFS "data.json" = load_data sampleFS "data.yaml" ∧
    mainRun sampleFS Vok "policy.yaml" "data.json" LogLevel.info
      = mainRun sampleFS Vok "policy.yaml" "data.yaml" LogLevel.info :=
  C6_format_equivalence sampleFS Vok "policy.yaml" "data.json" "data.yaml"
    LogLevel.info (fileOf sampleData) (fileOf sampleData) sampleData
    rfl rfl rfl rfl rfl rfl rfl rfl

/-- C7 counterexample: a run whose data path does not exist but whose policy
file exists with malformed YAML exits 1 without ever logging a file-not-found
condition — the logged condition is the YAML parse error, because the policy
load fails before the data path is opened.  This refutes the claim as
universally quantified over all runs with a nonexistent path. -/
theorem C7_missing_file_counterexample :
    sampleFS "missing.yaml" = none ∧
    (mainRun sampleFS Vok "badpolicy.yaml" "missing.yaml" LogLevel.debug)
      = ⟨[], 1, [(40, "Error parsing YAML file: bad"),
                 (50, "An unexpected error occurred: bad")]⟩ ∧
    (40, "File not found: missing.yaml")
      ∉ (mainRun sampleFS Vok "badpolicy.yaml" "missing.yaml" LogLevel.debug).logs ∧
    (40, "File not found: badpolicy.yaml")
      ∉ (mainRun sampleFS Vok "badpolicy.yaml" "missing.yaml" LogLevel.debug).logs :=
  ⟨rfl, by decide, by decide, by decide⟩

/-- C7 (amended): when the policy path does not exist, or the policy loads
successfully and the data path does not exist, the loader fails with a
file-not-found condition that is logged (at any threshold admitting
error-level records) and re-raised, and the run terminates with exit status 1
via the top-level handler's critical record. -/
theorem C7_missing_file (fs : FS) (V : Validator) (p d : String)
    (lvl : LogLevel) (pol : JValue) (lgp : List LogRec)
    (hl : lvl.toNat ≤ 40)
    (h : fs p = none ∨ (load_data fs p = (.ok pol, lgp) ∧ fs d = none)) :
    (mainRun fs V p d lvl).exitCode = 1 ∧
    (mainRun fs V p d lvl).stdout = [] ∧
    ((40, "File not found: " ++ p) ∈ (mainRun fs V p d lvl).logs ∨
     (40, "File not found: " ++ d) ∈ (mainRun fs V p d lvl).logs) ∧
    (∃ m, (50, "An unexpected error occurred: " ++ m)
            ∈ (mainRun fs V p d lvl).logs) := by
  have h50 := LogLevel.toNat_le_fifty lvl
  rcases h with hp | ⟨hp, hd⟩
  · have hload : load_data fs p =
        (.error (.fileNotFound p), [(40, "File not found: " ++ p)]) := by
      simp [load_data, hp]
    refine ⟨?_, ?_, Or.inl ?_,
            "[Errno 2] No such file or directory: '" ++ p ++ "'", ?_⟩ <;>
      simp [mainRun, mainRecords, mainBody, hload, PyExc.isException,
            PyExc.message, List.filter, hl, h50]
  · have hlp := load_data_ok_logs fs p _ _ hp
    subst hlp
    have hload : load_data fs d =
        (.error (.fileNotFound d), [(40, "File not found: " ++ d)]) := by
      simp [load_data, hd]
    refine ⟨?_, ?_, Or.inr ?_,
            "[Errno 2] No such file or directory: '" ++ d ++ "'", ?_⟩ <;>
      simp [mainRun, mainRecords, mainBody, hp, hload, PyExc.isException,
            PyExc.message, List.filter, hl, h50]

/-- Witness for the amended C7: a nonexistent policy path on the sample
filesystem. -/
theorem C7_missing_file_witness :
    (mainRun sampleFS Vok "missing.yaml" "data.yaml" LogLevel.info).exitCode = 1 ∧
    (mainRun sampleFS Vok "missing.yaml" "data.yaml" LogLevel.info).stdout = [] ∧
    ((40, "File not found: " ++ "missing.yaml")
        ∈ (mainRun sampleFS Vok "missing.yaml" "data.yaml" LogLevel.info).logs ∨
     (40, "File not found: " ++ "data.yaml")
        ∈ (mainRun sampleFS Vok "missing.yaml" "data.yaml" LogLevel.info).logs) :=
  let h := C7_missing_file sampleFS Vok "missing.yaml" "data.yaml" LogLevel.info
    JValue.null [] (by decide) (Or.inl rfl)
  ⟨h.1, h.2.1, h.2.2.1⟩

/-- C10: when both files load but the policy value does not support the
membership test for `schema` (YAML `null`, a boolean or a number — Python's
`in` raises `TypeError`), the run exits 1 through the generic top-level
handler with a critical "An unexpected error occurred" record, prints no
validation sentence, and never emits the dedicated "Policy file must contain
a 'schema' key." record. -/
theorem C10_non_mapping_policy (fs : FS) (V : Validator) (p d : String)
    (lvl : LogLevel) (pol dat : JValue) (lgp lgd : List LogRec) (m : String)
    (hp : load_data fs p = (.ok pol, lgp))
    (hd : load_data fs d = (.ok dat, lgd))
    (hty : pyContains "schema" pol = .error (.typeError m)) :
    (mainRun fs V p d lvl).exitCode = 1 ∧
    (mainRun fs V p d lvl).stdout = [] ∧
    (50, "An unexpected error occurred: " ++ m) ∈ (mainRun fs V p d lvl).logs ∧
    (40, "Policy file must contain a 'schema' key.")
      ∉ (mainRun fs V p d lvl).logs := by
  have h50 := LogLevel.toNat_le_fifty lvl
  have hlp := load_data_ok_logs fs p _ _ hp
  have hld := load_data_ok_logs fs d _ _ hd
  subst hlp hld
  refine ⟨?_, ?_, ?_, ?_⟩ <;>
    simp [mainRun, mainRecords, mainBody, hp, hd, hty, PyExc.isException,
          PyExc.message, List.filter, h50]

/-- Witness for C10: an empty-YAML policy file (parsing to `null`) on the
sample filesystem. -/
theorem C10_non_mapping_policy_witness :
    (mainRun sampleFS Vok "nullpolicy.yaml" "data.yaml" LogLevel.info).exitCode = 1 ∧
    (mainRun sampleFS Vok "nullpolicy.yaml" "data.yaml" LogLevel.info).stdout = [] ∧
    (50, "An unexpected error occurred: "
          ++ "argument of type 'NoneType' is not iterable")
      ∈ (mainRun sampleFS Vok "nullpolicy.yaml" "data.yaml" LogLevel.info).logs ∧
    (40, "Policy file must contain a 'schema' key.")
      ∉ (mainRun sampleFS Vok "nullpolicy.yaml" "data.yaml" LogLevel.info).logs :=
  C10_non_mapping_policy sampleFS Vok "nullpolicy.yaml" "data.yaml" LogLevel.info
    JValue.null sampleData [] [] "argument of type 'NoneType' is not iterable"
    rfl rfl rfl
